import Mathlib

/-!
Verification development for the budget_app ledger core: a shallow embedding
of the Django models (`budget/models.py`), the gig-income signal handlers
(`budget/signals.py`, `gigs/signals.py`) and the reporting views
(`budget/views.py`: `complex_algorithm`, `get_monthly_balances`).
Decimal money amounts are embedded as exact integers (`Int`), dates as
year/month/day triples with the Gregorian month lengths used by Python's
`calendar.monthrange`.
-/

namespace BudgetApp

/-- Calendar date (`datetime.date`): year, month, day. -/
structure PDate where
  y : Nat
  m : Nat
  d : Nat
deriving DecidableEq

/-- `a <= b` on dates, lexicographic on (year, month, day). -/
def dateLe (a b : PDate) : Bool :=
  decide (a.y < b.y ∨ (a.y = b.y ∧ (a.m < b.m ∨ (a.m = b.m ∧ a.d ≤ b.d))))

/-- `a < b` on dates, lexicographic on (year, month, day). -/
def dateLt (a b : PDate) : Bool :=
  decide (a.y < b.y ∨ (a.y = b.y ∧ (a.m < b.m ∨ (a.m = b.m ∧ a.d < b.d))))

/-- Gregorian leap-year rule, as used by `calendar.monthrange`. -/
def isLeap (y : Nat) : Bool :=
  (y % 4 == 0 && y % 100 != 0) || y % 400 == 0

/-- Number of days in month `m` of year `y` (`calendar.monthrange(y, m)[1]`). -/
def monthLength (y m : Nat) : Nat :=
  if m == 2 then (if isLeap y then 29 else 28)
  else if m == 4 || m == 6 || m == 9 || m == 11 then 30
  else 31

/-- A well-formed calendar date. -/
def ValidDate (dt : PDate) : Prop :=
  1 ≤ dt.m ∧ dt.m ≤ 12 ∧ 1 ≤ dt.d ∧ dt.d ≤ monthLength dt.y dt.m

instance (dt : PDate) : Decidable (ValidDate dt) := by
  unfold ValidDate; infer_instance

/-- `Account.account_type` choices (`budget/models.py`). -/
inductive AccountType
  | Deposit
  | Charge
  | PersonalLoan
  | VehicleLoan
deriving DecidableEq

/-- The `Account` model: unique name, active flag, type. -/
structure Account where
  id : Nat
  name : String
  active : Bool
  account_type : AccountType
deriving DecidableEq

/-- The `SubCategory` model (category link omitted: unused by the claims). -/
structure SubCategory where
  id : Nat
  name : String
deriving DecidableEq

/-- The `Transaction` model (the LedgerRecord).  Money is in exact integer
units; `amount` is maintained by `transactionSave`.  Foreign keys are ids. -/
structure Transaction where
  id : Nat
  account : Nat
  transfer : Option Nat
  date : PDate
  description : String
  debit : Option Int
  credit : Option Int
  amount : Int
  subcategory : Option Nat
  cleared : Bool
  write_off : Bool
  is_carryover : Bool
deriving DecidableEq

/-- The `Transfer` model; accounts are embedded by value so the save logic
can read `account_type` and `name` off the foreign keys. -/
structure Transfer where
  id : Nat
  from_account : Account
  to_account : Account
  date : PDate
  amount : Int
  description : String
  cleared : Bool
  write_off : Bool
deriving DecidableEq

/-- Database state: the tables the claims touch. -/
structure DB where
  accounts : List Account
  subcategories : List SubCategory
  transfers : List Transfer
  transactions : List Transaction
deriving DecidableEq

/-- `Transaction.save` (`budget/models.py` lines 142-144): on every write the
stored `amount` is recomputed as `(credit or 0) - (debit or 0)`.  Python's
`x or 0` maps both `None` and zero to `0`, which agrees with `Option.getD 0`
on the embedded values. -/
def transactionSave (t : Transaction) : Transaction :=
  { t with amount := (t.credit.getD 0) - (t.debit.getD 0) }

/-- Errors a save can raise (Django `DoesNotExist`, `MultipleObjectsReturned`). -/
inductive SaveError
  | subcatMissing (n : String)
  | subcatMultiple (n : String)
  | multipleObjects
deriving DecidableEq

/-- `SubCategory.objects.get(name=n)`: exactly one match or an error. -/
def getSubCategory (subs : List SubCategory) (n : String) :
    Except SaveError SubCategory :=
  match subs.filter (fun s => s.name == n) with
  | [s] => .ok s
  | [] => .error (.subcatMissing n)
  | _ => .error (.subcatMultiple n)

/-- The non-key fields passed as `defaults=` to the two
`Transaction.objects.update_or_create` calls in `Transfer.save`. -/
structure LegDefaults where
  transfer : Nat
  description : String
  debit : Option Int
  credit : Option Int
  cleared : Bool
  write_off : Bool
deriving DecidableEq

/-- The lookup key of an `update_or_create` call in `Transfer.save`:
account, date, amount, subcategory. -/
def matchesLegKey (a : Nat) (dt : PDate) (amt : Int) (scId : Nat)
    (t : Transaction) : Bool :=
  t.account == a && t.date == dt && t.amount == amt && t.subcategory == some scId

/-- Updating a matched row: set the `defaults=` fields and run the model
save (which recomputes `amount`). -/
def applyLegDefaults (t : Transaction) (dfl : LegDefaults) : Transaction :=
  transactionSave { t with
    transfer := some dfl.transfer
    description := dfl.description
    debit := dfl.debit
    credit := dfl.credit
    cleared := dfl.cleared
    write_off := dfl.write_off }

/-- A fresh primary key for a created row. -/
def freshId (txns : List Transaction) : Nat :=
  (txns.map (fun t => t.id)).foldr max 0 + 1

/-- Creating a new row: key fields plus `defaults=`, then the model save
(which recomputes `amount` from credit/debit). -/
def newLeg (i : Nat) (a : Nat) (dt : PDate) (amt : Int) (scId : Nat)
    (dfl : LegDefaults) : Transaction :=
  transactionSave {
    id := i
    account := a
    transfer := some dfl.transfer
    date := dt
    description := dfl.description
    debit := dfl.debit
    credit := dfl.credit
    amount := amt
    subcategory := some scId
    cleared := dfl.cleared
    write_off := dfl.write_off
    is_carryover := false }

/-- `Transaction.objects.update_or_create(account=a, date=dt, amount=amt,
subcategory=sc, defaults=dfl)`: update the unique row matching the key,
create one when none matches, raise when several match. -/
def updateOrCreateLeg (txns : List Transaction) (a : Nat) (dt : PDate)
    (amt : Int) (scId : Nat) (dfl : LegDefaults) :
    Except SaveError (List Transaction) :=
  match txns.filter (matchesLegKey a dt amt scId) with
  | [] => .ok (txns ++ [newLeg (freshId txns) a dt amt scId dfl])
  | [_] => .ok (txns.map (fun t =>
      if matchesLegKey a dt amt scId t then applyLegDefaults t dfl else t))
  | _ => .error .multipleObjects

/-- Writing the `Transfer` row itself (`super().save()`): replace the row
with the same id, or insert when new. -/
def upsertTransfer (ts : List Transfer) (t : Transfer) : List Transfer :=
  if ts.any (fun u => u.id == t.id) then
    ts.map (fun u => if u.id == t.id then t else u)
  else ts ++ [t]

/-- Outcome of `Transfer.save`: the database state after the call together
with the error it raised, if any.  There is no enclosing atomic unit of work
in the source (`add_transfer` calls `form.save()` bare and the settings do
not enable ATOMIC_REQUESTS), so effects applied before an exception persist. -/
structure SaveResult where
  db : DB
  err : Option SaveError
deriving DecidableEq

/-- The `defaults=` of the outgoing `update_or_create` in `Transfer.save`:
`self.description or f"Transfer to {to}"`, debit set, credit null. -/
def outgoingDefaults (t : Transfer) : LegDefaults :=
  ⟨t.id,
   if t.description = "" then "Transfer to " ++ t.to_account.name
   else t.description,
   some t.amount, none, t.cleared, t.write_off⟩

/-- The `defaults=` of the incoming `update_or_create` in `Transfer.save`:
`self.description or f"Transfer from {from}"`, credit set, debit null. -/
def incomingDefaults (t : Transfer) : LegDefaults :=
  ⟨t.id,
   if t.description = "" then "Transfer from " ++ t.from_account.name
   else t.description,
   none, some t.amount, t.cleared, t.write_off⟩

/-- `Transfer.save` (`budget/models.py` lines 65-108), step by step:
write the transfer row, resolve the generic transfer subcategory, resolve
the incoming subcategory (Credit Card Payments for Charge destinations),
then upsert the outgoing and incoming legs. -/
def transferSave (db : DB) (t : Transfer) : SaveResult :=
  let db1 : DB := { db with transfers := upsertTransfer db.transfers t }
  match getSubCategory db1.subcategories ("Transfer between accounts") with
  | .error e => ⟨db1, some e⟩
  | .ok transferBetween =>
    let subcatsResolved : Except SaveError (SubCategory × SubCategory) :=
      if t.to_account.account_type = AccountType.Charge then
        match getSubCategory db1.subcategories ("Credit Card Payments") with
        | .error e => .error e
        | .ok cc => .ok (cc, transferBetween)
      else .ok (transferBetween, transferBetween)
    match subcatsResolved with
    | .error e => ⟨db1, some e⟩
    | .ok (scTo, scFrom) =>
      match updateOrCreateLeg db1.transactions t.from_account.id t.date
          (-t.amount) scFrom.id (outgoingDefaults t) with
      | .error e => ⟨db1, some e⟩
      | .ok txns1 =>
        match updateOrCreateLeg txns1 t.to_account.id t.date t.amount
            scTo.id (incomingDefaults t) with
        | .error e => ⟨{ db1 with transactions := txns1 }, some e⟩
        | .ok txns2 => ⟨{ db1 with transactions := txns2 }, none⟩

/-- The outgoing leg created by a clean (no key match) `Transfer.save`. -/
def cleanOutLeg (db : DB) (t : Transfer) (sG : SubCategory) : Transaction :=
  newLeg (freshId db.transactions) t.from_account.id t.date (-t.amount)
    sG.id (outgoingDefaults t)

/-- The incoming leg created by a clean (no key match) `Transfer.save`;
`scTo` is the resolved incoming subcategory. -/
def cleanInLeg (db : DB) (t : Transfer) (sG : SubCategory)
    (scTo : SubCategory) : Transaction :=
  newLeg (freshId (db.transactions ++ [cleanOutLeg db t sG]))
    t.to_account.id t.date t.amount scTo.id (incomingDefaults t)

/-- The incoming subcategory `Transfer.save` resolves for a transfer:
Credit Card Payments when the destination is a Charge account, the generic
transfer subcategory otherwise. -/
def resolvedToSubcat (t : Transfer) (sG sC : SubCategory) : SubCategory :=
  if t.to_account.account_type = AccountType.Charge then sC else sG

/-- Sum of `amount` over a list of transactions (a `Sum('amount')`
aggregate; the embedded `amount` is always non-null, as it is for every
row written through the model save). -/
def sumAmounts (l : List Transaction) : Int :=
  l.foldr (fun t acc => t.amount + acc) 0

/-- Dormancy, selected-month branch (`complex_algorithm`, views.py 328-346):
start balance of a Deposit account = sum of its amounts with
`date <= sel_month_first` (inclusive of the month's first day). -/
def startBalanceMonth (db : DB) (y m : Nat) (acct : Account) : Int :=
  sumAmounts (db.transactions.filter (fun t =>
    t.account == acct.id && dateLe t.date ⟨y, m, 1⟩))

/-- Dormancy, selected-month branch: activity = sum of amounts with
`sel_month_first <= date <= sel_month_last`. -/
def activityMonth (db : DB) (y m : Nat) (acct : Account) : Int :=
  sumAmounts (db.transactions.filter (fun t =>
    t.account == acct.id && dateLe ⟨y, m, 1⟩ t.date &&
      dateLe t.date ⟨y, m, monthLength y m⟩))

/-- Dormancy, selected-month branch: the Deposit accounts appended to the
`dormant` list (views.py 352-353): `end_balance = start + (activity - start)`
and the account is listed when `activity == start_balance and
start_balance == 0 and end_balance == 0`. -/
def dormantMonthAccounts (db : DB) (y m : Nat) : List Account :=
  (db.accounts.filter (fun a => a.account_type == AccountType.Deposit)).filter
    (fun a =>
      let s := startBalanceMonth db y m a
      let act := activityMonth db y m a
      let e := s + (act - s)
      act == s && s == 0 && e == 0)

/-- The `dormant` name list of the selected-month branch. -/
def dormantMonthNames (db : DB) (y m : Nat) : List String :=
  (dormantMonthAccounts db y m).map (fun a => a.name)

/-- Dormancy, all-months branch (views.py 360-386): start balance = sum of
amounts with `date < jan_1`. -/
def startBalanceYear (db : DB) (y : Nat) (acct : Account) : Int :=
  sumAmounts (db.transactions.filter (fun t =>
    t.account == acct.id && dateLt t.date ⟨y, 1, 1⟩))

/-- Dormancy, all-months branch: activity = sum of amounts with
`jan_1 <= date <= dec_31`. -/
def activityYear (db : DB) (y : Nat) (acct : Account) : Int :=
  sumAmounts (db.transactions.filter (fun t =>
    t.account == acct.id && dateLe ⟨y, 1, 1⟩ t.date &&
      dateLe t.date ⟨y, 12, 31⟩))

/-- Dormancy, all-months branch: listed when `activity == 0 and
start_balance == 0 and end_balance == 0`. -/
def dormantYearAccounts (db : DB) (y : Nat) : List Account :=
  (db.accounts.filter (fun a => a.account_type == AccountType.Deposit)).filter
    (fun a =>
      let s := startBalanceYear db y a
      let act := activityYear db y a
      let e := s + (act - s)
      act == 0 && s == 0 && e == 0)

/-- The `dormant` name list of the all-months branch. -/
def dormantYearNames (db : DB) (y : Nat) : List String :=
  (dormantYearAccounts db y).map (fun a => a.name)

/-- Sum of an account's amounts dated exactly on the first day of a month
(used to state C10). -/
def firstDaySum (db : DB) (y m : Nat) (acct : Account) : Int :=
  sumAmounts (db.transactions.filter (fun t =>
    t.account == acct.id && t.date == PDate.mk y m 1))

/-- `complex_algorithm` month bucket for one account (views.py 392-400 and
427): transactions of the report year in calendar month `m` on the account,
with carryover rows excluded. -/
def monthTxs (db : DB) (y m : Nat) (acct : Account) : List Transaction :=
  db.transactions.filter (fun t =>
    t.account == acct.id && t.date.y == y && t.date.m == m && !t.is_carryover)

/-- `complex_algorithm`: the month's debit total for an account
(`sum(float(t.debit or 0) ...)`, embedded exactly). -/
def debitTotal (db : DB) (y m : Nat) (acct : Account) : Int :=
  (monthTxs db y m acct).foldr (fun t acc => t.debit.getD 0 + acc) 0

/-- `complex_algorithm`: the month's credit total for an account. -/
def creditTotal (db : DB) (y m : Nat) (acct : Account) : Int :=
  (monthTxs db y m acct).foldr (fun t acc => t.credit.getD 0 + acc) 0

/-- `complex_algorithm`: `computed_change = credit - debit`. -/
def computedChange (db : DB) (y m : Nat) (acct : Account) : Int :=
  creditTotal db y m acct - debitTotal db y m acct

/-- `complex_algorithm` carryover seed (views.py 402-410): sum of amounts of
the account's rows flagged `is_carryover` dated exactly January 1 of the
report year. -/
def carryoverSeed (db : DB) (y : Nat) (acct : Account) : Int :=
  sumAmounts (db.transactions.filter (fun t =>
    t.account == acct.id && t.date == PDate.mk y 1 1 && t.is_carryover))

/-- `complex_algorithm` running balance after month `m` (0 = the seed):
`ending_balance = beginning_balance + computed_change`, walked in month
order from the carryover seed. -/
def endingBalance (db : DB) (y : Nat) (acct : Account) : Nat → Int
  | 0 => carryoverSeed db y acct
  | m + 1 => endingBalance db y acct m + computedChange db y (m + 1) acct

/-- Whether a transaction belongs to a Deposit account of the database
(the `account__in=deposit_accounts` filters of `get_monthly_balances`). -/
def isDepositTx (db : DB) (t : Transaction) : Bool :=
  db.accounts.any (fun a =>
    a.id == t.account && a.account_type == AccountType.Deposit)

/-- Lexicographic order on `(year, month)` keys, for the ascending
`.dates('date', 'month')` enumeration. -/
def monthKeyLe (a b : Nat × Nat) : Bool :=
  a.1 < b.1 || (a.1 == b.1 && a.2 ≤ b.2)

/-- Insert a month key into an ascending list (insertion sort step). -/
def insertMonth (k : Nat × Nat) : List (Nat × Nat) → List (Nat × Nat)
  | [] => [k]
  | x :: xs => if monthKeyLe k x then k :: x :: xs else x :: insertMonth k xs

/-- Ascending insertion sort of month keys. -/
def sortMonths : List (Nat × Nat) → List (Nat × Nat)
  | [] => []
  | x :: xs => insertMonth x (sortMonths xs)

/-- `get_monthly_balances` (views.py 792-801): the distinct `(year, month)`
keys of deposit-account transactions, ascending. -/
def monthsOf (db : DB) : List (Nat × Nat) :=
  sortMonths (((db.transactions.filter (isDepositTx db)).map
    (fun t => (t.date.y, t.date.m))).dedup)

/-- Sum of deposit-account amounts with `date <= d`. -/
def sumAllLe (db : DB) (d : PDate) : Int :=
  sumAmounts (db.transactions.filter (fun t =>
    isDepositTx db t && dateLe t.date d))

/-- Sum of deposit-account amounts with `date < d`. -/
def sumAllLt (db : DB) (d : PDate) : Int :=
  sumAmounts (db.transactions.filter (fun t =>
    isDepositTx db t && dateLt t.date d))

/-- Sum of deposit-account `is_carryover` amounts with `date <= d`. -/
def sumCarryoverLe (db : DB) (d : PDate) : Int :=
  sumAmounts (db.transactions.filter (fun t =>
    isDepositTx db t && dateLe t.date d && t.is_carryover))

/-- `get_monthly_balances` (views.py 792-838): for every month with at
least one deposit-account transaction, a `(start, end)` balance pair.  The
start balance uses the carryover sum when the calendar month equals 1
(January) and the strictly-before sum otherwise; the end balance sums all
amounts up to the month's last day. -/
def getMonthlyBalances (db : DB) : List ((Nat × Nat) × (Int × Int)) :=
  (monthsOf db).map (fun k =>
    let firstDay : PDate := ⟨k.1, k.2, 1⟩
    let lastDay : PDate := ⟨k.1, k.2, monthLength k.1 k.2⟩
    let start := if k.2 == 1 then sumCarryoverLe db firstDay
                 else sumAllLt db firstDay
    (k, (start, sumAllLe db lastDay)))

/-- The description both sync handlers write:
`f"Gig earnings - {company.code}"`. -/
def gigDescription (code : String) : String :=
  "Gig earnings - " ++ code

/-- The `GigCompany` model (`budget/models.py` / `gigs/models.py`): code
plus the (optional) payout account and income subcategory ids. -/
structure GigCompany where
  id : Nat
  code : String
  payout_account : Option Nat
  income_subcategory : Option Nat
deriving DecidableEq

/-- A `GigCompanyEntry` together with the fields the sync handlers read:
the owning shift's date, the company configuration, the earnings figures,
and the one-to-one link to its income `Transaction` (by id). -/
structure GigCompanyEntry where
  id : Nat
  shiftDate : PDate
  company : GigCompany
  tips_amount : Int
  earnings_before_tips : Int
  gross_earnings : Int
  income_transaction : Option Nat
deriving DecidableEq

/-- The update-in-place branch of `sync_gig_entry_to_transaction` in
`gigs/signals.py` (lines 40-52): sets date, account, credit, description,
subcategory, cleared, write_off, debit, then runs the model save. -/
def gigUpdateGigs (e : GigCompanyEntry) (payout subcat : Nat)
    (t : Transaction) : Transaction :=
  transactionSave { t with
    date := e.shiftDate
    account := payout
    credit := some e.gross_earnings
    description := gigDescription e.company.code
    subcategory := some subcat
    cleared := false
    write_off := false
    debit := none }

/-- The update-in-place branch of `sync_gig_entry_to_transaction` in
`budget/signals.py` (lines 26-37): sets date, account, `amount` (a field
the model save recomputes from the unchanged credit/debit), description,
subcategory, cleared, write_off, then runs the model save.  It never
assigns `credit` or `debit`. -/
def gigUpdateBudget (e : GigCompanyEntry) (payout subcat : Nat)
    (t : Transaction) : Transaction :=
  transactionSave { t with
    date := e.shiftDate
    account := payout
    amount := e.gross_earnings
    description := gigDescription e.company.code
    subcategory := some subcat
    cleared := false
    write_off := false }

/-- The creation branch shared by both handlers:
`Transaction.objects.create(..., debit=None, credit=amount, ...)` followed
by linking the new row back to the entry without re-triggering the signal. -/
def gigCreate (e : GigCompanyEntry) (payout subcat : Nat)
    (txns : List Transaction) : Transaction :=
  transactionSave {
    id := freshId txns
    account := payout
    transfer := none
    date := e.shiftDate
    description := gigDescription e.company.code
    debit := none
    credit := some e.gross_earnings
    amount := 0
    subcategory := some subcat
    cleared := false
    write_off := false
    is_carryover := false }

/-- `sync_gig_entry_to_transaction` (`gigs/signals.py` lines 22-67):
no-op when the company lacks a payout account or income subcategory,
otherwise update the linked transaction in place or create and link one. -/
def gigSyncGigs (txns : List Transaction) (e : GigCompanyEntry) :
    List Transaction × GigCompanyEntry :=
  match e.company.payout_account, e.company.income_subcategory with
  | some payout, some subcat =>
    match e.income_transaction with
    | some txId =>
      (txns.map (fun t =>
        if t.id == txId then gigUpdateGigs e payout subcat t else t), e)
    | none =>
      let t := gigCreate e payout subcat txns
      (txns ++ [t], { e with income_transaction := some t.id })
  | _, _ => (txns, e)

/-- `sync_gig_entry_to_transaction` (`budget/signals.py` lines 6-52): the
same structure, but its update branch is `gigUpdateBudget`, which assigns
`tx.amount` instead of `tx.credit`. -/
def gigSyncBudget (txns : List Transaction) (e : GigCompanyEntry) :
    List Transaction × GigCompanyEntry :=
  match e.company.payout_account, e.company.income_subcategory with
  | some payout, some subcat =>
    match e.income_transaction with
    | some txId =>
      (txns.map (fun t =>
        if t.id == txId then gigUpdateBudget e payout subcat t else t), e)
    | none =>
      let t := gigCreate e payout subcat txns
      (txns ++ [t], { e with income_transaction := some t.id })
  | _, _ => (txns, e)

/-- Scenario accounts and subcategories used by concrete instances. -/
def checkingAcct : Account := ⟨1, "Checking", true, AccountType.Deposit⟩

/-- A Charge-type destination account. -/
def visaAcct : Account := ⟨2, "VisaCard", true, AccountType.Charge⟩

/-- A second Deposit account, used to edit a transfer's `from_account`. -/
def otherAcct : Account := ⟨3, "OtherChecking", true, AccountType.Deposit⟩

/-- The generic transfer subcategory row. -/
def genericSubcat : SubCategory := ⟨1, "Transfer between accounts"⟩

/-- The credit-card payment subcategory row. -/
def ccSubcat : SubCategory := ⟨2, "Credit Card Payments"⟩

/-- A database holding the scenario accounts and both subcategories. -/
def exDB : DB :=
  ⟨[checkingAcct, visaAcct, otherAcct], [genericSubcat, ccSubcat], [], []⟩

/-- Scenario A transfer: Checking to VisaCard (Charge), amount 100,
dated 2025-03-01, empty description. -/
def exTransfer : Transfer :=
  ⟨1, checkingAcct, visaAcct, ⟨2025, 3, 1⟩, 100, "", false, false⟩

/-- A database with no subcategories at all. -/
def noSubcatDB : DB := ⟨[checkingAcct, visaAcct], [], [], []⟩

/-- The account used by the C10 counterexample. -/
def c10Acct : Account := ⟨9, "FirstDayAcct", true, AccountType.Deposit⟩

/-- C10 counterexample data: a -5 in February, +5 on March 1, -5 on
March 20; the March start balance and activity are both zero although the
first-day amounts sum to 5. -/
def c10DB : DB := ⟨[c10Acct], [], [],
  [⟨1, 9, none, ⟨2025, 2, 15⟩, "", some 5, none, -5, none, false, false,
    false⟩,
   ⟨2, 9, none, ⟨2025, 3, 1⟩, "", none, some 5, 5, none, false, false,
    false⟩,
   ⟨3, 9, none, ⟨2025, 3, 20⟩, "", some 5, none, -5, none, false, false,
    false⟩]⟩

/-- Account for the C9 witness data. -/
def c9Acct : Account := ⟨5, "CarryAcct", true, AccountType.Deposit⟩

/-- A carryover row dated 2025-02-01 (not January 1). -/
def c9r : Transaction :=
  ⟨11, 5, none, ⟨2025, 2, 1⟩, "", none, some 7, 7, none, false, false, true⟩

/-- C9 witness database: a January-1 carryover seed and one organic
February row. -/
def c9DB : DB := ⟨[c9Acct], [], [],
  [⟨12, 5, none, ⟨2025, 1, 1⟩, "", none, some 3, 3, none, false, false,
    true⟩,
   ⟨13, 5, none, ⟨2025, 2, 10⟩, "", none, some 4, 4, none, false, false,
    false⟩]⟩

/-- Account for the rollup counterexample/witness data. -/
def c3Acct : Account := ⟨4, "RollupAcct", true, AccountType.Deposit⟩

/-- Rollup data crossing a year boundary: amount 10 on 2024-12-05 and
amount 5 on 2025-01-10, no carryover rows. -/
def c3DB : DB := ⟨[c3Acct], [], [],
  [⟨1, 4, none, ⟨2024, 12, 5⟩, "", none, some 10, 10, none, false, false,
    false⟩,
   ⟨2, 4, none, ⟨2025, 1, 10⟩, "", none, some 5, 5, none, false, false,
    false⟩]⟩

/-- Account for the same-year adjacency witness. -/
def c5Acct : Account := ⟨6, "SameYearAcct", true, AccountType.Deposit⟩

/-- Same-year rollup data: amount 10 in March 2025 and 5 in April 2025. -/
def c5DB : DB := ⟨[c5Acct], [], [],
  [⟨21, 6, none, ⟨2025, 3, 5⟩, "", none, some 10, 10, none, false, false,
    false⟩,
   ⟨22, 6, none, ⟨2025, 4, 10⟩, "", none, some 5, 5, none, false, false,
    false⟩]⟩

/-- A fully configured gig company (payout account 1, subcategory 3). -/
def gigCo : GigCompany := ⟨1, "DD", some 1, some 3⟩

/-- The previously synced income transaction: credit 100 from an earlier
save with gross earnings 100. -/
def gigTx : Transaction :=
  ⟨7, 1, none, ⟨2025, 3, 1⟩, "Gig earnings - DD", none, some 100, 100,
   some 3, false, false, false⟩

/-- The gig entry after its gross earnings changed from 100 to 120; it is
already linked one-to-one to transaction 7. -/
def gigEntry : GigCompanyEntry := ⟨1, ⟨2025, 3, 2⟩, gigCo, 30, 90, 120, some 7⟩

end BudgetApp

namespace BudgetApp

/-- C1: For every LedgerRecord (Transaction), after every write the stored
amount equals (credit or 0) minus (debit or 0); amount is never accepted as
caller input, and any direct assignment to amount is overwritten by this
recomputation on the next save. -/
theorem transaction_amount_invariant (t : Transaction) :
    (transactionSave t).amount = (t.credit.getD 0) - (t.debit.getD 0) ∧
    ∀ a : Int, transactionSave { t with amount := a } = transactionSave t := by
  constructor
  · rfl
  · intro a
    rfl

/-- Mapping a function that fixes every element of a list is the identity. -/
theorem map_id_of_mem {α : Type} {f : α → α} {l : List α}
    (h : ∀ x ∈ l, f x = x) : l.map f = l := by
  induction l with
  | nil => rfl
  | cons a tl ih =>
    simp only [List.map_cons, h a (by simp)]
    rw [ih (fun x hx => h x (by simp [hx]))]

/-- Updating the unique element matching `p` with a function fixing it
leaves the list unchanged. -/
theorem map_update_of_filter_singleton {α : Type} {p : α → Bool} {f : α → α}
    {l : List α} {a : α} (h : l.filter p = [a]) (hf : f a = a) :
    l.map (fun x => if p x then f x else x) = l := by
  apply map_id_of_mem
  intro x hx
  by_cases hp : p x
  · have hm : x ∈ l.filter p := List.mem_filter.mpr ⟨hx, hp⟩
    rw [h, List.mem_singleton] at hm
    subst hm
    simp [hp, hf]
  · simp [hp]

/-- `update_or_create` with no key match takes the create path. -/
theorem updateOrCreateLeg_create {txns : List Transaction} {a : Nat}
    {dt : PDate} {amt : Int} {scId : Nat} {dfl : LegDefaults}
    (h : txns.filter (matchesLegKey a dt amt scId) = []) :
    updateOrCreateLeg txns a dt amt scId dfl =
      .ok (txns ++ [newLeg (freshId txns) a dt amt scId dfl]) := by
  unfold updateOrCreateLeg
  rw [h]

/-- `update_or_create` with a unique key match takes the update path. -/
theorem updateOrCreateLeg_update {txns : List Transaction} {a : Nat}
    {dt : PDate} {amt : Int} {scId : Nat} {dfl : LegDefaults}
    {u : Transaction}
    (h : txns.filter (matchesLegKey a dt amt scId) = [u]) :
    updateOrCreateLeg txns a dt amt scId dfl =
      .ok (txns.map (fun t =>
        if matchesLegKey a dt amt scId t then applyLegDefaults t dfl
        else t)) := by
  unfold updateOrCreateLeg
  rw [h]

/-- The clean outgoing leg matches its own lookup key. -/
theorem outLeg_key_self (db : DB) (t : Transfer) (sG : SubCategory) :
    matchesLegKey t.from_account.id t.date (-t.amount) sG.id
      (cleanOutLeg db t sG) = true := by
  simp [matchesLegKey, cleanOutLeg, newLeg, transactionSave,
    outgoingDefaults, zero_sub]

/-- The clean incoming leg matches its own lookup key. -/
theorem inLeg_key_self (db : DB) (t : Transfer) (sG scTo : SubCategory) :
    matchesLegKey t.to_account.id t.date t.amount scTo.id
      (cleanInLeg db t sG scTo) = true := by
  simp [matchesLegKey, cleanInLeg, newLeg, transactionSave,
    incomingDefaults, sub_zero]

/-- The clean outgoing leg never matches a key on a different account. -/
theorem outLeg_key_other (db : DB) (t : Transfer) (sG : SubCategory)
    (a : Nat) (dt : PDate) (amt : Int) (scId : Nat)
    (h : t.from_account.id ≠ a) :
    matchesLegKey a dt amt scId (cleanOutLeg db t sG) = false := by
  simp [matchesLegKey, cleanOutLeg, newLeg, transactionSave,
    outgoingDefaults, h]

/-- The clean incoming leg never matches a key on a different account. -/
theorem inLeg_key_other (db : DB) (t : Transfer) (sG scTo : SubCategory)
    (a : Nat) (dt : PDate) (amt : Int) (scId : Nat)
    (h : t.to_account.id ≠ a) :
    matchesLegKey a dt amt scId (cleanInLeg db t sG scTo) = false := by
  simp [matchesLegKey, cleanInLeg, newLeg, transactionSave,
    incomingDefaults, h]

/-- Unfolding of a clean `Transfer.save`: subcategories resolve, neither
upsert key matches an existing row, so both legs are created. -/
theorem transferSave_clean (db : DB) (t : Transfer) (sG sC : SubCategory)
    (hG : getSubCategory db.subcategories ("Transfer between accounts") =
      .ok sG)
    (hC : t.to_account.account_type = AccountType.Charge →
      getSubCategory db.subcategories ("Credit Card Payments") = .ok sC)
    (hne : t.from_account.id ≠ t.to_account.id)
    (hOut : db.transactions.filter
      (matchesLegKey t.from_account.id t.date (-t.amount) sG.id) = [])
    (hIn : db.transactions.filter
      (matchesLegKey t.to_account.id t.date t.amount
        (resolvedToSubcat t sG sC).id) = []) :
    transferSave db t =
      ⟨{ db with
          transfers := upsertTransfer db.transfers t
          transactions := (db.transactions ++ [cleanOutLeg db t sG]) ++
            [cleanInLeg db t sG (resolvedToSubcat t sG sC)] }, none⟩ := by
  have hInFull : (db.transactions ++ [cleanOutLeg db t sG]).filter
      (matchesLegKey t.to_account.id t.date t.amount
        (resolvedToSubcat t sG sC).id) = [] := by
    rw [List.filter_append, hIn]
    simp [outLeg_key_other db t sG _ _ _ _ hne]
  unfold transferSave
  dsimp only
  rw [hG]
  dsimp only
  by_cases hch : t.to_account.account_type = AccountType.Charge
  · rw [if_pos hch, hC hch]
    dsimp only
    have hsc : resolvedToSubcat t sG sC = sC := if_pos hch
    rw [hsc] at hIn hInFull
    simp only [cleanOutLeg] at hInFull
    rw [updateOrCreateLeg_create hOut]
    dsimp only
    rw [updateOrCreateLeg_create hInFull]
    dsimp only
    simp [cleanOutLeg, cleanInLeg, hsc]
  · rw [if_neg hch]
    dsimp only
    have hsc : resolvedToSubcat t sG sC = sG := if_neg hch
    rw [hsc] at hIn hInFull
    simp only [cleanOutLeg] at hInFull
    rw [updateOrCreateLeg_create hOut]
    dsimp only
    rw [updateOrCreateLeg_create hInFull]
    dsimp only
    simp [cleanOutLeg, cleanInLeg, hsc]

/-- A successfully looked-up subcategory has the requested name. -/
theorem getSubCategory_name {subs : List SubCategory} {n : String}
    {s : SubCategory} (h : getSubCategory subs n = .ok s) : s.name = n := by
  unfold getSubCategory at h
  split at h
  next x heq =>
    cases h
    have hx : s ∈ subs.filter (fun u => u.name == n) := by rw [heq]; simp
    have := (List.mem_filter.mp hx).2
    simpa using this
  next => cases h
  next => cases h

/-- Updating a freshly created leg with the same defaults changes nothing. -/
theorem applyLegDefaults_newLeg (i a : Nat) (dt : PDate) (amt : Int)
    (scId : Nat) (dfl : LegDefaults) :
    applyLegDefaults (newLeg i a dt amt scId dfl) dfl =
      newLeg i a dt amt scId dfl := rfl

/-- Re-running the transfer-row upsert with the same row changes nothing. -/
theorem upsertTransfer_idem (ts : List Transfer) (t : Transfer) :
    upsertTransfer (upsertTransfer ts t) t = upsertTransfer ts t := by
  unfold upsertTransfer
  by_cases h : ts.any (fun u => u.id == t.id) = true
  · rw [if_pos h]
    have hany : (ts.map (fun u => if u.id == t.id then t else u)).any
        (fun u => u.id == t.id) = true := by
      rw [List.any_eq_true] at h ⊢
      obtain ⟨u, hu, hid⟩ := h
      exact ⟨t, List.mem_map.mpr ⟨u, hu, by simp [hid]⟩, by simp⟩
    rw [if_pos hany, List.map_map]
    apply List.map_congr_left
    intro u _
    by_cases hid : u.id = t.id
    · simp [hid]
    · simp [hid]
  · rw [if_neg h]
    have hany : (ts ++ [t]).any (fun u => u.id == t.id) = true := by
      simp
    rw [if_pos hany]
    apply map_id_of_mem
    intro u hu
    rcases List.mem_append.mp hu with hu1 | hu2
    · rw [Bool.not_eq_true, List.any_eq_false] at h
      simp [h u hu1]
    · rw [List.mem_singleton] at hu2
      subst hu2
      simp

/-- The transfer row written by `Transfer.save` is in the table afterwards. -/
theorem upsertTransfer_mem (ts : List Transfer) (t : Transfer) :
    t ∈ upsertTransfer ts t := by
  unfold upsertTransfer
  by_cases h : ts.any (fun u => u.id == t.id) = true
  · rw [if_pos h]
    rw [List.any_eq_true] at h
    obtain ⟨u, hu, hid⟩ := h
    exact List.mem_map.mpr ⟨u, hu, by simp [hid]⟩
  · rw [if_neg h]
    simp

/-- When no subcategory has the requested name, the lookup raises. -/
theorem getSubCategory_missing {subs : List SubCategory} {n : String}
    (h : ∀ s ∈ subs, s.name ≠ n) :
    getSubCategory subs n = .error (.subcatMissing n) := by
  unfold getSubCategory
  have hnil : subs.filter (fun x => x.name == n) = [] :=
    List.filter_eq_nil_iff.mpr (by intro a ha; simpa using h a ha)
  rw [hnil]

/-- C2 counterexample: after editing a saved Transfer's `from_account` and
saving again, the save completes without error yet three LedgerRecords
reference the transfer (the stale outgoing leg survives beside the new
one), so "exactly two LedgerRecords reference it" is false for a saved
Transfer. -/
theorem transfer_two_legs_cex :
    (transferSave (transferSave exDB exTransfer).db
        { exTransfer with from_account := otherAcct }).err = none ∧
    ((transferSave (transferSave exDB exTransfer).db
        { exTransfer with from_account := otherAcct }).db.transactions.filter
      (fun tx => tx.transfer == some exTransfer.id)).length = 3 := by
  exact ⟨rfl, rfl⟩

/-- C2 (amended): for a Transfer saved while no LedgerRecord references it
and no existing row matches either upsert key, the save succeeds and
exactly two LedgerRecords reference it: the outgoing one on `from_account`
with debit = amount, credit null, amount = -amount and the generic transfer
subcategory, and the incoming one on `to_account` with credit = amount,
debit null, amount = +amount, whose subcategory is Credit Card Payments
when `to_account` is a Charge account and the generic transfer subcategory
otherwise. -/
theorem transfer_save_two_legs (db : DB) (t : Transfer) (sG sC : SubCategory)
    (hG : getSubCategory db.subcategories ("Transfer between accounts") =
      .ok sG)
    (hC : t.to_account.account_type = AccountType.Charge →
      getSubCategory db.subcategories ("Credit Card Payments") = .ok sC)
    (hne : t.from_account.id ≠ t.to_account.id)
    (href : db.transactions.filter (fun tx => tx.transfer == some t.id) = [])
    (hOut : db.transactions.filter
      (matchesLegKey t.from_account.id t.date (-t.amount) sG.id) = [])
    (hIn : db.transactions.filter
      (matchesLegKey t.to_account.id t.date t.amount
        (resolvedToSubcat t sG sC).id) = []) :
    (transferSave db t).err = none ∧
    ∃ o i, (transferSave db t).db.transactions.filter
        (fun tx => tx.transfer == some t.id) = [o, i] ∧
      o.account = t.from_account.id ∧ o.debit = some t.amount ∧
      o.credit = none ∧ o.amount = -t.amount ∧
      o.subcategory = some sG.id ∧
      i.account = t.to_account.id ∧ i.credit = some t.amount ∧
      i.debit = none ∧ i.amount = t.amount ∧
      i.subcategory = some (resolvedToSubcat t sG sC).id ∧
      sG.name = "Transfer between accounts" ∧
      (t.to_account.account_type = AccountType.Charge →
        (resolvedToSubcat t sG sC).name = "Credit Card Payments") ∧
      (t.to_account.account_type ≠ AccountType.Charge →
        resolvedToSubcat t sG sC = sG) := by
  rw [transferSave_clean db t sG sC hG hC hne hOut hIn]
  refine ⟨rfl, cleanOutLeg db t sG,
    cleanInLeg db t sG (resolvedToSubcat t sG sC), ?_, ?_, ?_, ?_, ?_, ?_,
    ?_, ?_, ?_, ?_, ?_, ?_, ?_, ?_⟩
  · rw [List.filter_append, List.filter_append, href]
    simp [cleanOutLeg, cleanInLeg, newLeg, transactionSave,
      outgoingDefaults, incomingDefaults]
  · rfl
  · simp [cleanOutLeg, newLeg, transactionSave, outgoingDefaults]
  · rfl
  · simp [cleanOutLeg, newLeg, transactionSave, outgoingDefaults, zero_sub]
  · rfl
  · rfl
  · simp [cleanInLeg, newLeg, transactionSave, incomingDefaults]
  · rfl
  · simp [cleanInLeg, newLeg, transactionSave, incomingDefaults, sub_zero]
  · rfl
  · exact getSubCategory_name hG
  · intro hch
    have hsc : resolvedToSubcat t sG sC = sC := if_pos hch
    rw [hsc]
    exact getSubCategory_name (hC hch)
  · intro hch
    exact if_neg hch

/-- C2 witness: Scenario A (Checking to VisaCard, a Charge account,
amount 100, 2025-03-01) instantiates the amended theorem. -/
theorem transfer_save_two_legs_witness :
    (transferSave exDB exTransfer).err = none ∧
    ∃ o i, (transferSave exDB exTransfer).db.transactions.filter
        (fun tx => tx.transfer == some exTransfer.id) = [o, i] ∧
      o.account = exTransfer.from_account.id ∧
      o.debit = some exTransfer.amount ∧
      o.credit = none ∧ o.amount = -exTransfer.amount ∧
      o.subcategory = some genericSubcat.id ∧
      i.account = exTransfer.to_account.id ∧
      i.credit = some exTransfer.amount ∧
      i.debit = none ∧ i.amount = exTransfer.amount ∧
      i.subcategory =
        some (resolvedToSubcat exTransfer genericSubcat ccSubcat).id ∧
      genericSubcat.name = "Transfer between accounts" ∧
      (exTransfer.to_account.account_type = AccountType.Charge →
        (resolvedToSubcat exTransfer genericSubcat ccSubcat).name =
          "Credit Card Payments") ∧
      (exTransfer.to_account.account_type ≠ AccountType.Charge →
        resolvedToSubcat exTransfer genericSubcat ccSubcat =
          genericSubcat) :=
  transfer_save_two_legs exDB exTransfer genericSubcat ccSubcat rfl
    (fun _ => rfl) (by decide) rfl rfl rfl

/-- C6: re-running `Transfer.save` on an unchanged Transfer, starting from
a clean first save, returns the database unchanged: no additional
LedgerRecords are created and the two legs' fields are untouched. -/
theorem transfer_resave_idempotent (db : DB) (t : Transfer)
    (sG sC : SubCategory)
    (hG : getSubCategory db.subcategories ("Transfer between accounts") =
      .ok sG)
    (hC : t.to_account.account_type = AccountType.Charge →
      getSubCategory db.subcategories ("Credit Card Payments") = .ok sC)
    (hne : t.from_account.id ≠ t.to_account.id)
    (hOut : db.transactions.filter
      (matchesLegKey t.from_account.id t.date (-t.amount) sG.id) = [])
    (hIn : db.transactions.filter
      (matchesLegKey t.to_account.id t.date t.amount
        (resolvedToSubcat t sG sC).id) = []) :
    transferSave (transferSave db t).db t =
      ⟨(transferSave db t).db, none⟩ := by
  rw [transferSave_clean db t sG sC hG hC hne hOut hIn]
  have hfo : ((db.transactions ++ [cleanOutLeg db t sG]) ++
      [cleanInLeg db t sG (resolvedToSubcat t sG sC)]).filter
        (matchesLegKey t.from_account.id t.date (-t.amount) sG.id) =
      [cleanOutLeg db t sG] := by
    rw [List.filter_append, List.filter_append, hOut]
    simp [outLeg_key_self, inLeg_key_other db t sG _ _ _ _ _ (Ne.symm hne)]
  have hfi : ((db.transactions ++ [cleanOutLeg db t sG]) ++
      [cleanInLeg db t sG (resolvedToSubcat t sG sC)]).filter
        (matchesLegKey t.to_account.id t.date t.amount
          (resolvedToSubcat t sG sC).id) =
      [cleanInLeg db t sG (resolvedToSubcat t sG sC)] := by
    rw [List.filter_append, List.filter_append, hIn]
    simp [inLeg_key_self, outLeg_key_other db t sG _ _ _ _ hne]
  unfold transferSave
  dsimp only
  rw [hG]
  dsimp only
  by_cases hch : t.to_account.account_type = AccountType.Charge
  · rw [if_pos hch, hC hch]
    dsimp only
    have hsc : resolvedToSubcat t sG sC = sC := if_pos hch
    rw [hsc] at hfo hfi ⊢
    rw [updateOrCreateLeg_update hfo]
    dsimp only
    rw [map_update_of_filter_singleton hfo rfl]
    rw [updateOrCreateLeg_update hfi]
    dsimp only
    rw [map_update_of_filter_singleton hfi rfl]
    rw [upsertTransfer_idem]
  · rw [if_neg hch]
    dsimp only
    have hsc : resolvedToSubcat t sG sC = sG := if_neg hch
    rw [hsc] at hfo hfi ⊢
    rw [updateOrCreateLeg_update hfo]
    dsimp only
    rw [map_update_of_filter_singleton hfo rfl]
    rw [updateOrCreateLeg_update hfi]
    dsimp only
    rw [map_update_of_filter_singleton hfi rfl]
    rw [upsertTransfer_idem]

/-- C6 witness: Scenario A re-saved is a no-op. -/
theorem transfer_resave_idempotent_witness :
    transferSave (transferSave exDB exTransfer).db exTransfer =
      ⟨(transferSave exDB exTransfer).db, none⟩ :=
  transfer_resave_idempotent exDB exTransfer genericSubcat ccSubcat rfl
    (fun _ => rfl) (by decide) rfl rfl

/-- C7 counterexample: with the generic transfer subcategory missing the
save raises and posts no leg, but the Transfer row itself IS persisted,
contradicting the claim that the enclosing unit of work is aborted and the
Transfer row not persisted. -/
theorem transfer_missing_subcat_cex :
    (transferSave noSubcatDB exTransfer).err ≠ none ∧
    (transferSave noSubcatDB exTransfer).db.transactions = [] ∧
    exTransfer ∈ (transferSave noSubcatDB exTransfer).db.transfers := by
  exact ⟨by decide, rfl, by decide⟩

/-- C7 (amended): when no stored subcategory is named "Transfer between
accounts", `Transfer.save` raises that lookup failure and posts neither
leg, but the Transfer row itself is persisted, because the row write
precedes the lookup and no enclosing atomic unit rolls it back. -/
theorem transfer_missing_subcat (db : DB) (t : Transfer)
    (h : ∀ s ∈ db.subcategories, s.name ≠ "Transfer between accounts") :
    (transferSave db t).err =
      some (.subcatMissing ("Transfer between accounts")) ∧
    (transferSave db t).db.transactions = db.transactions ∧
    t ∈ (transferSave db t).db.transfers := by
  unfold transferSave
  dsimp only
  rw [getSubCategory_missing h]
  exact ⟨rfl, rfl, upsertTransfer_mem _ _⟩

/-- C7 witness: the amended behavior at the concrete empty-subcategory
database. -/
theorem transfer_missing_subcat_witness :
    (transferSave noSubcatDB exTransfer).err =
      some (.subcatMissing ("Transfer between accounts")) ∧
    (transferSave noSubcatDB exTransfer).db.transactions =
      noSubcatDB.transactions ∧
    exTransfer ∈ (transferSave noSubcatDB exTransfer).db.transfers :=
  transfer_missing_subcat noSubcatDB exTransfer (by decide)

/-- Every month has at least one day. -/
theorem monthLength_pos (y m : Nat) : 1 ≤ monthLength y m := by
  unfold monthLength
  split_ifs <;> omega

/-- C8: for every Deposit account and a selected period, both branches of
the dormancy check flag the account dormant exactly when the period's start
balance and activity are both exactly zero; no other account is flagged. -/
theorem dormant_iff (db : DB) (y m : Nat) (nm : String) :
    (nm ∈ dormantMonthNames db y m ↔
      ∃ a, a ∈ db.accounts ∧ a.name = nm ∧
        a.account_type = AccountType.Deposit ∧
        startBalanceMonth db y m a = 0 ∧ activityMonth db y m a = 0) ∧
    (nm ∈ dormantYearNames db y ↔
      ∃ a, a ∈ db.accounts ∧ a.name = nm ∧
        a.account_type = AccountType.Deposit ∧
        startBalanceYear db y a = 0 ∧ activityYear db y a = 0) := by
  constructor
  · unfold dormantMonthNames dormantMonthAccounts
    rw [List.mem_map]
    constructor
    · rintro ⟨a, ha, rfl⟩
      have h1 := List.mem_filter.mp ha
      have h2 := List.mem_filter.mp h1.1
      have hc := h1.2
      simp only [Bool.and_eq_true, beq_iff_eq] at hc
      refine ⟨a, h2.1, rfl, by simpa using h2.2, ?_, ?_⟩
      · exact hc.1.2
      · have := hc.1.1
        omega
    · rintro ⟨a, ha, rfl, hdep, hs, hact⟩
      refine ⟨a, List.mem_filter.mpr ⟨List.mem_filter.mpr ⟨ha, ?_⟩, ?_⟩, rfl⟩
      · simp [hdep]
      · simp only [Bool.and_eq_true, beq_iff_eq]
        exact ⟨⟨by rw [hs, hact], hs⟩, by rw [hs, hact]; ring⟩
  · unfold dormantYearNames dormantYearAccounts
    rw [List.mem_map]
    constructor
    · rintro ⟨a, ha, rfl⟩
      have h1 := List.mem_filter.mp ha
      have h2 := List.mem_filter.mp h1.1
      have hc := h1.2
      simp only [Bool.and_eq_true, beq_iff_eq] at hc
      exact ⟨a, h2.1, rfl, by simpa using h2.2, hc.1.2, hc.1.1⟩
    · rintro ⟨a, ha, rfl, hdep, hs, hact⟩
      refine ⟨a, List.mem_filter.mpr ⟨List.mem_filter.mpr ⟨ha, ?_⟩, ?_⟩, rfl⟩
      · simp [hdep]
      · simp only [Bool.and_eq_true, beq_iff_eq]
        exact ⟨⟨hact, hs⟩, by rw [hs, hact]; ring⟩

/-- C10 counterexample: an account whose first-day amounts sum to a
non-zero value is nevertheless flagged dormant for the month, because
earlier and later transactions cancel both sums to zero. -/
theorem dormancy_first_day_cex :
    firstDaySum c10DB 2025 3 c10Acct = 5 ∧
    c10Acct.name ∈ dormantMonthNames c10DB 2025 3 := by
  exact ⟨rfl, by decide⟩

/-- C10 (amended): the month dormancy start-balance window is inclusive of
the selected month's first day, so a record dated on that day passes both
the start-balance filter (`date <= first_day`) and the activity filter
(`first_day <= date <= last_day`); consequently an account whose amounts
dated on or before the first day sum to a non-zero value is not flagged
dormant. -/
theorem dormancy_first_day_window (db : DB) (y m : Nat) (acct : Account)
    (hnd : (db.accounts.map (fun a => a.name)).Nodup)
    (ha : acct ∈ db.accounts)
    (hdep : acct.account_type = AccountType.Deposit)
    (hsum : startBalanceMonth db y m acct ≠ 0) :
    dateLe (PDate.mk y m 1) ⟨y, m, 1⟩ = true ∧
    dateLe (PDate.mk y m 1) ⟨y, m, monthLength y m⟩ = true ∧
    acct.name ∉ dormantMonthNames db y m := by
  have hpos := monthLength_pos y m
  refine ⟨by simp [dateLe], by simp [dateLe]; omega, ?_⟩
  intro hmem
  unfold dormantMonthNames dormantMonthAccounts at hmem
  rw [List.mem_map] at hmem
  obtain ⟨b, hb, hbn⟩ := hmem
  have h1 := List.mem_filter.mp hb
  have h2 := List.mem_filter.mp h1.1
  have hba : b = acct :=
    List.inj_on_of_nodup_map hnd h2.1 ha hbn
  subst hba
  have hc := h1.2
  simp only [Bool.and_eq_true, beq_iff_eq] at hc
  exact hsum hc.1.2

/-- C10 witness: for April the account's start balance is -5, so it is not
dormant, and the first-day date lies in both windows. -/
theorem dormancy_first_day_window_witness :
    dateLe (PDate.mk 2025 4 1) ⟨2025, 4, 1⟩ = true ∧
    dateLe (PDate.mk 2025 4 1) ⟨2025, 4, monthLength 2025 4⟩ = true ∧
    c10Acct.name ∉ dormantMonthNames c10DB 2025 4 :=
  dormancy_first_day_window c10DB 2025 4 c10Acct (by decide) (by decide)
    rfl (by decide)

/-- C9: rows flagged `is_carryover` are excluded from every month's debit
and credit totals (hence from `computed_change`), and a carryover row dated
any day other than January 1 of the report year also contributes nothing to
the running-balance seed nor to any month's `ending_balance`. -/
theorem carryover_exclusion (db : DB) (r : Transaction) (y k m : Nat)
    (acct : Account) (hc : r.is_carryover = true) :
    (debitTotal { db with transactions := r :: db.transactions } y k acct =
        debitTotal db y k acct ∧
      creditTotal { db with transactions := r :: db.transactions } y k acct =
        creditTotal db y k acct ∧
      computedChange { db with transactions := r :: db.transactions } y k
          acct =
        computedChange db y k acct) ∧
    (r.date ≠ PDate.mk y 1 1 →
      carryoverSeed { db with transactions := r :: db.transactions } y acct =
          carryoverSeed db y acct ∧
      endingBalance { db with transactions := r :: db.transactions } y acct
          m =
        endingBalance db y acct m) := by
  have hmt : ∀ j, monthTxs { db with transactions := r :: db.transactions }
      y j acct = monthTxs db y j acct := by
    intro j
    unfold monthTxs
    dsimp only
    rw [List.filter_cons_of_neg]
    simp [hc]
  have htot : ∀ j,
      debitTotal { db with transactions := r :: db.transactions } y j acct =
        debitTotal db y j acct ∧
      creditTotal { db with transactions := r :: db.transactions } y j acct =
        creditTotal db y j acct ∧
      computedChange { db with transactions := r :: db.transactions } y j
          acct =
        computedChange db y j acct := by
    intro j
    unfold computedChange debitTotal creditTotal
    rw [hmt j]
    exact ⟨rfl, rfl, rfl⟩
  refine ⟨htot k, fun hdate => ?_⟩
  have hseed : carryoverSeed { db with transactions := r :: db.transactions }
      y acct = carryoverSeed db y acct := by
    unfold carryoverSeed sumAmounts
    dsimp only
    rw [List.filter_cons_of_neg]
    have : (r.date == PDate.mk y 1 1) = false := by
      simpa using hdate
    simp [this]
  refine ⟨hseed, ?_⟩
  induction m with
  | zero => exact hseed
  | succ j ih =>
    unfold endingBalance
    rw [ih, (htot (j + 1)).2.2]

/-- C9 witness: inserting the 2025-02-01 carryover row changes no February
total, no seed and no running balance. -/
theorem carryover_exclusion_witness :
    (debitTotal { c9DB with transactions := c9r :: c9DB.transactions }
        2025 2 c9Acct = debitTotal c9DB 2025 2 c9Acct ∧
      creditTotal { c9DB with transactions := c9r :: c9DB.transactions }
        2025 2 c9Acct = creditTotal c9DB 2025 2 c9Acct ∧
      computedChange { c9DB with transactions := c9r :: c9DB.transactions }
        2025 2 c9Acct = computedChange c9DB 2025 2 c9Acct) ∧
    (carryoverSeed { c9DB with transactions := c9r :: c9DB.transactions }
        2025 c9Acct = carryoverSeed c9DB 2025 c9Acct ∧
      endingBalance { c9DB with transactions := c9r :: c9DB.transactions }
        2025 c9Acct 3 = endingBalance c9DB 2025 c9Acct 3) :=
  ⟨(carryover_exclusion c9DB c9r 2025 2 3 c9Acct rfl).1,
   (carryover_exclusion c9DB c9r 2025 2 3 c9Acct rfl).2 (by decide)⟩

/-- Membership is preserved by the insertion step. -/
theorem mem_insertMonth (k a : Nat × Nat) (l : List (Nat × Nat)) :
    k ∈ insertMonth a l ↔ k = a ∨ k ∈ l := by
  induction l with
  | nil => simp [insertMonth]
  | cons x xs ih =>
    unfold insertMonth
    by_cases h : monthKeyLe a x
    · simp [h]
    · rw [if_neg h]
      simp only [List.mem_cons, ih]
      tauto

/-- Membership is preserved by the month sort. -/
theorem mem_sortMonths (k : Nat × Nat) (l : List (Nat × Nat)) :
    k ∈ sortMonths l ↔ k ∈ l := by
  induction l with
  | nil => simp [sortMonths]
  | cons x xs ih =>
    unfold sortMonths
    rw [mem_insertMonth]
    simp [ih]

/-- Unfolding a `get_monthly_balances` entry: the month key is an actual
transaction month and the stored pair follows the January/non-January
branch of the code. -/
theorem gmb_mem {db : DB} {y m : Nat} {s e : Int}
    (h : ((y, m), (s, e)) ∈ getMonthlyBalances db) :
    (y, m) ∈ monthsOf db ∧
    s = (if m == 1 then sumCarryoverLe db ⟨y, m, 1⟩
         else sumAllLt db ⟨y, m, 1⟩) ∧
    e = sumAllLe db ⟨y, m, monthLength y m⟩ := by
  unfold getMonthlyBalances at h
  obtain ⟨k, hk, heq⟩ := List.mem_map.mp h
  cases k with
  | mk ky km =>
    dsimp only at heq
    simp only [Prod.mk.injEq] at heq
    obtain ⟨⟨hy, hm⟩, hs, he⟩ := heq
    subst hy
    subst hm
    exact ⟨hk, hs.symm, he.symm⟩

/-- A month key is enumerated exactly when some deposit-account
transaction falls in it. -/
theorem monthsOf_mem (db : DB) (k : Nat × Nat) :
    k ∈ monthsOf db ↔ ∃ t, t ∈ db.transactions ∧ isDepositTx db t = true ∧
      t.date.y = k.1 ∧ t.date.m = k.2 := by
  unfold monthsOf
  rw [mem_sortMonths, List.mem_dedup, List.mem_map]
  constructor
  · rintro ⟨t, ht, rfl⟩
    have hm := List.mem_filter.mp ht
    exact ⟨t, hm.1, hm.2, rfl, rfl⟩
  · rintro ⟨t, ht, hdep, hy, hm⟩
    refine ⟨t, List.mem_filter.mpr ⟨ht, hdep⟩, ?_⟩
    cases k
    simp only at hy hm
    rw [hy, hm]

/-- For a valid date, lying on or before a month's last day is the same as
lying strictly before the next month's first day (same year). -/
theorem dateLe_last_iff_lt_next (d : PDate) (y m : Nat) (hv : ValidDate d)
    (hm1 : 1 ≤ m) (hm2 : m + 1 ≤ 12) :
    dateLe d ⟨y, m, monthLength y m⟩ = dateLt d ⟨y, m + 1, 1⟩ := by
  obtain ⟨ha, hb, hc, hd⟩ := hv
  unfold dateLe dateLt
  rw [decide_eq_decide]
  dsimp only
  by_cases hy : d.y = y
  · subst hy
    by_cases hm : d.m = m
    · subst hm
      omega
    · omega
  · omega

/-- C3 counterexample: with activity in December 2024 and January 2025,
the January entry's stored start balance is 0 (the code branches on the
calendar month being January and sums carryover rows only), while the
claim's subsequent-month formula (all amounts strictly before January 1)
gives 10, which is non-zero. -/
theorem monthly_balances_cex :
    ((2025, 1), ((0 : Int), (15 : Int))) ∈ getMonthlyBalances c3DB ∧
    sumAllLt c3DB ⟨2025, 1, 1⟩ ≠ 0 := by
  constructor
  · decide
  · decide

/-- C3 (amended): every entry of `get_monthly_balances` belongs to a month
with at least one deposit-account transaction; its start balance is the
carryover sum when the calendar month is January (regardless of whether it
is the earliest month) and the sum of all amounts strictly before the first
day otherwise; its end balance sums all amounts up to the month's last
day. -/
theorem monthly_balances_formulas (db : DB) (y m : Nat) (s e : Int)
    (h : ((y, m), (s, e)) ∈ getMonthlyBalances db) :
    (∃ t, t ∈ db.transactions ∧ isDepositTx db t = true ∧
      t.date.y = y ∧ t.date.m = m) ∧
    s = (if m = 1 then sumCarryoverLe db ⟨y, m, 1⟩
         else sumAllLt db ⟨y, m, 1⟩) ∧
    e = sumAllLe db ⟨y, m, monthLength y m⟩ := by
  obtain ⟨hk, hs, he⟩ := gmb_mem h
  refine ⟨(monthsOf_mem db (y, m)).mp hk, ?_, he⟩
  by_cases hm : m = 1
  · simp only [hm] at hs ⊢
    simpa using hs
  · simp only [hm] at hs ⊢
    have hb : (m == 1) = false := by simp [hm]
    rw [hb] at hs
    simpa using hs

/-- C3 witness: the December 2024 entry of the counterexample database
follows the non-January formula. -/
theorem monthly_balances_formulas_witness :
    (∃ t, t ∈ c3DB.transactions ∧ isDepositTx c3DB t = true ∧
      t.date.y = 2024 ∧ t.date.m = 12) ∧
    (0 : Int) = (if (12 : Nat) = 1 then sumCarryoverLe c3DB ⟨2024, 12, 1⟩
         else sumAllLt c3DB ⟨2024, 12, 1⟩) ∧
    (10 : Int) = sumAllLe c3DB ⟨2024, 12, monthLength 2024 12⟩ :=
  monthly_balances_formulas c3DB 2024 12 0 10 (by decide)

/-- C5 counterexample: December 2024 and January 2025 are chronologically
adjacent months with no gap, yet December's end balance is 10 while
January's start balance is 0. -/
theorem rollup_adjacent_cex :
    ((2024, 12), ((0 : Int), (10 : Int))) ∈ getMonthlyBalances c3DB ∧
    ((2025, 1), ((0 : Int), (15 : Int))) ∈ getMonthlyBalances c3DB ∧
    (10 : Int) ≠ (0 : Int) := by
  refine ⟨by decide, by decide, by decide⟩

/-- C5 (amended): for months of the same calendar year that are adjacent
with no gap, the earlier month's end balance equals the later month's
start balance (the equality breaks only across a December-to-January
boundary, where the January branch sums carryover rows instead). -/
theorem rollup_adjacent_same_year (db : DB) (y m : Nat) (s1 e1 s2 e2 : Int)
    (hval : ∀ t ∈ db.transactions, ValidDate t.date)
    (h1 : ((y, m), (s1, e1)) ∈ getMonthlyBalances db)
    (h2 : ((y, m + 1), (s2, e2)) ∈ getMonthlyBalances db) :
    e1 = s2 := by
  obtain ⟨hk1, hs1, he1⟩ := gmb_mem h1
  obtain ⟨hk2, hs2, he2⟩ := gmb_mem h2
  obtain ⟨t1, ht1, hd1, hy1, hm1⟩ := (monthsOf_mem db (y, m)).mp hk1
  obtain ⟨t2, ht2, hd2, hy2, hm2⟩ := (monthsOf_mem db (y, m + 1)).mp hk2
  have hv1 := hval t1 ht1
  have hv2 := hval t2 ht2
  have hmlow : 1 ≤ m := by
    have := hv1.1
    omega
  have hmhigh : m + 1 ≤ 12 := by
    have := hv2.2.1
    omega
  have hb : ((m + 1) == 1) = false := by
    simp
    omega
  rw [hb] at hs2
  simp only [Bool.false_eq_true, if_false] at hs2
  rw [he1, hs2]
  unfold sumAllLe sumAllLt sumAmounts
  congr 1
  apply List.filter_congr
  intro t ht
  rw [dateLe_last_iff_lt_next t.date y m (hval t ht) hmlow hmhigh]

/-- C5 witness: the March/April 2025 entries of the same-year database
agree: March's end balance 10 equals April's start balance. -/
theorem rollup_adjacent_same_year_witness : (10 : Int) = (10 : Int) :=
  rollup_adjacent_same_year c5DB 2025 3 0 10 10 15 (by decide)
    (by decide) (by decide)

/-- C4: updating a linked entry whose gross earnings changed to 120, the
`budget/signals.py` handler leaves the linked row's credit at the stale
100 (it assigns `tx.amount`, which the model save immediately recomputes
from the unchanged credit/debit), while the `gigs/signals.py` handler
writes credit 120 as the claim and both handlers' documentation state. -/
theorem gig_sync_update_divergence :
    gigEntry.gross_earnings = 120 ∧
    ((gigSyncBudget [gigTx] gigEntry).1.map (fun t => t.credit)) =
      [some 100] ∧
    ((gigSyncBudget [gigTx] gigEntry).1.map (fun t => t.amount)) =
      [(100 : Int)] ∧
    ((gigSyncGigs [gigTx] gigEntry).1.map (fun t => t.credit)) =
      [some 120] ∧
    ((gigSyncGigs [gigTx] gigEntry).1.map (fun t => t.amount)) =
      [(120 : Int)] := by
  exact ⟨rfl, rfl, rfl, rfl, rfl⟩

end BudgetApp
